import Mathlib

/-!
Verification of the solve-orchestration bridge of the NYT Connections
solver (Next.js route `app/api/solve/route.ts` and the client component
`components/Solver.tsx`), shallowly embedded in Lean 4.

Each definition mirrors a specific stretch of the TypeScript (or the
inline Python glue script) and is annotated with the source location it
embeds.  Strings model JavaScript strings; `Option` models
absent/undefined JSON fields; machine control flow (try/catch, promise
resolution) is made explicit as case analysis on event values.
-/

namespace ConnectionsBridge

/-! ## Structured-output extraction

Embeds the JSON-line recovery in the solve route (part_002, lines
491-508):

    const lines = stdout.trim().split('\n');
    let jsonLine = lines[lines.length - 1];
    if (!jsonLine.startsWith('\x7b') && !jsonLine.startsWith('[')) \x7b
      for (let i = lines.length - 1; i >= 0; i--) \x7b
        if (lines[i].trim().startsWith('\x7b') || lines[i].trim().startsWith('[')) \x7b
          jsonLine = lines[i].trim();
          break;
        \x7d
      \x7d
    \x7d
    const solverResult = JSON.parse(jsonLine);
-/

/-- Whitespace as stripped by JavaScript `String.prototype.trim` (the
ASCII part, which is all the data of the route can contain). -/
def jsIsSpace (c : Char) : Bool :=
  c == ' ' || c == '\t' || c == '\n' || c == '\r'

/-- JavaScript `s.trim()`: strip leading and trailing whitespace. -/
def jsTrim (s : String) : String :=
  ⟨((s.data.dropWhile jsIsSpace).reverse.dropWhile jsIsSpace).reverse⟩

/-- Character-level splitting on the newline character; like JavaScript
`split('\n')`, the result is never empty (splitting the empty string
yields one empty piece). -/
def splitNlChars : List Char → List (List Char)
  | [] => [[]]
  | c :: cs =>
    let rest := splitNlChars cs
    if c == '\n' then [] :: rest
    else
      match rest with
      | h :: t => (c :: h) :: t
      | [] => [[c]]

/-- JavaScript `s.split('\n')`. -/
def jsSplitNl (s : String) : List String :=
  (splitNlChars s.data).map String.mk

/-- JavaScript `s.startsWith(c)` for a single-character prefix `c`: the
first character of `s` is `c`.  (Both call sites in the route test the
one-character prefixes of the two structural open characters.) -/
def startsWithChar (s : String) (c : Char) : Bool :=
  match s.data with
  | [] => false
  | c' :: _ => c' == c

/-- A trimmed line "looks like JSON" when it begins with a structural
open character, as tested inside the backward scan. -/
def looksStructural (l : String) : Bool :=
  startsWithChar (jsTrim l) '\x7b' || startsWithChar (jsTrim l) '['

/-- Backward scan of part_002 lines 499-504: the *last* line of the list
whose trimmed content begins with a structural open character, trimmed;
`none` when no line qualifies.  Recursing on the tail first gives the
match nearest the end, exactly like the `for (i = length-1; i >= 0; i--)`
loop with `break`. -/
def scanBackForStructural : List String → Option String
  | [] => none
  | l :: ls =>
    match scanBackForStructural ls with
    | some r => some r
    | none => if looksStructural l then some (jsTrim l) else none

/-- The line handed to `JSON.parse` (part_002 lines 493-508): the last
line of the trimmed stdout, unless it does not start (untrimmed) with a
structural character, in which case the result of the backward scan replaces
it; when the scan also finds nothing the raw last line is kept (and
`JSON.parse` then fails on it). -/
def selectJsonLine (stdout : String) : String :=
  let lines := jsSplitNl (jsTrim stdout)
  let lastLine := lines.getLastD ""
  if startsWithChar lastLine '\x7b' || startsWithChar lastLine '[' then lastLine
  else (scanBackForStructural lines).getD lastLine

/-! ## Engine payload and response shaping

Embeds the `Prediction` wire shape and the normalization block of the
solve route (part_002, lines 283-300 and 508-545).  `Option` fields model
JSON fields that may be absent (`undefined`/`null`); confidence is a
rational stand-in for the JSON number, which the route only copies. -/

/-- One candidate group as it appears in the engine payload
(part_002, lines 283-291). -/
structure Pred where
  words : List String
  confidence : Rat
  category : Option String := none
  explanation : Option String := none
  method : String := "embeddings"
  sources : Option (List String) := none
  difficulty : Option String := none
deriving DecidableEq

/-- The parsed engine payload (`solverResult` after `JSON.parse`,
part_002 line 508).  The engine may emit the newer shape
(`top_solution` / `all_predictions` / `all_words_covered`) or the older
flat shape (just `predictions`); every field may be absent. -/
structure SolverResult where
  top_solution : Option (List Pred) := none
  all_predictions : Option (List Pred) := none
  predictions : Option (List Pred) := none
  all_words_covered : Option Bool := none
  solve_time_ms : Option Int := none
deriving DecidableEq

/-- One group in the HTTP response of the route, after field normalization. -/
structure PredOut where
  words : List String
  confidence : Rat
  category : Option String
  explanation : Option String
  method : String
  sources : List String
  difficulty : Option String
deriving DecidableEq

/-- An empty-string option collapses to `none`, mirroring the JavaScript
`x || null` idiom applied to the optional string fields (an absent, null
or empty-string field all map to `null`). -/
def orNull (o : Option String) : Option String :=
  match o with
  | some s => if s = "" then none else some s
  | none => none

/-- Field normalization applied to each group of both returned lists
(part_002, lines 525-533 and 534-542):
`category`/`explanation`/`difficulty` default to `null`, `sources`
defaults to `[method]` (an empty sources array is truthy in JavaScript
and is kept). -/
def normalizePred (p : Pred) : PredOut :=
  { words := p.words
    confidence := p.confidence
    category := orNull p.category
    explanation := orNull p.explanation
    method := p.method
    sources := p.sources.getD [p.method]
    difficulty := orNull p.difficulty }

/-- Selection of the returned top solution, embedding
`solverResult.top_solution || solverResult.predictions?.slice(0, 4) || []`
(part_002 line 511): an engine-supplied `top_solution` is used as-is
(whatever its length); otherwise the first four entries of the flat
`predictions` list; otherwise empty. -/
def routeTopSolution (r : SolverResult) : List Pred :=
  match r.top_solution with
  | some t => t
  | none =>
    match r.predictions with
    | some p => p.take 4
    | none => []

/-- Selection of the returned candidate pool, embedding
`solverResult.all_predictions || solverResult.predictions || []`
(part_002 line 512). -/
def routeAllPredictions (r : SolverResult) : List Pred :=
  match r.all_predictions with
  | some a => a
  | none => r.predictions.getD []

/-- The coverage flag, embedding
`solverResult.all_words_covered !== undefined ? solverResult.all_words_covered
: (topSolution.length === 4)` (part_002 lines 513-515): the self-reported
flag of the engine is used verbatim whenever present; only when the
engine omits it does the route fall back to a local length check. -/
def routeAllWordsCovered (r : SolverResult) : Bool :=
  match r.all_words_covered with
  | some b => b
  | none => (routeTopSolution r).length == 4

/-- The successful route response body (part_002, lines 293-300 and
522-545). -/
structure RouteResponse where
  top_solution : List PredOut
  all_predictions : List PredOut
  solve_time_ms : Option Int
  all_words_covered : Bool
deriving DecidableEq

/-- The whole response-shaping block of the solve route (part_002 lines
508-545), from parsed engine payload to HTTP response body. -/
def shapeResponse (r : SolverResult) : RouteResponse :=
  { top_solution := (routeTopSolution r).map normalizePred
    all_predictions := (routeAllPredictions r).map normalizePred
    solve_time_ms := r.solve_time_ms
    all_words_covered := routeAllWordsCovered r }

/-! ## Exclusion filtering (inline Python glue, part_002 lines 393-401)

    if exclude_words:
        exclude_set = set(w.upper() for w in exclude_words)
        filtered_predictions = []
        for pred in result['predictions']:
            pred_words_upper = set(w.upper() for w in pred['words'])
            if not pred_words_upper.intersection(exclude_set):
                filtered_predictions.append(pred)
        result['predictions'] = filtered_predictions
-/

/-- Case folding as done on both sides of the comparison
(`w.upper()` in Python, `w.toUpperCase()` in the client). -/
def jsToUpper (s : String) : String :=
  ⟨s.data.map Char.toUpper⟩

/-- The upper-cased word set of `a` meets the upper-cased word set of
`b`: the Python `pred_words_upper.intersection(exclude_set)` test. -/
def wordSetIntersects (a b : List String) : Bool :=
  (a.map jsToUpper).any (fun w => (b.map jsToUpper).contains w)

/-- The Python loop body: keep exactly the predictions whose word set
does not meet the exclusion vocabulary. -/
def applyExclusionFilter (exclude_words : List String) (preds : List Pred) : List Pred :=
  preds.filter (fun p => !wordSetIntersects p.words exclude_words)

/-- Post-processing done by the glue script: when `exclude_words` is non-empty
(Python truthiness of a list), the flat `predictions` list is filtered in
place; the `top_solution` and `all_predictions` fields, if the engine
emitted them, are left untouched. -/
def pyPostProcess (exclude_words : List String) (r : SolverResult) : SolverResult :=
  if exclude_words.isEmpty then r
  else { r with predictions := r.predictions.map (applyExclusionFilter exclude_words) }

/-- One complete solve round from the parsed engine payload to the HTTP
response body: Python exclusion filtering followed by the response
shaping of the route. -/
def solveRound (exclude_words : List String) (r : SolverResult) : RouteResponse :=
  shapeResponse (pyPostProcess exclude_words r)

/-! ## Client-side solver session state (components/Solver.tsx)

The `useState` hooks of the `Solver` component (lines 27-35), gathered
into one record.  The client-side `Prediction` record (lines 9-17)
coincides field-for-field with the engine-side `Pred` above (the client
never reads `method` on any path a claim concerns), so `Pred` is reused.
-/

structure SolverState where
  topSolution : List Pred
  allPredictions : List Pred
  excludedPredictions : List Pred
  solveTime : Option Int
  error : Option String
  showExcluded : Bool
  allWordsCovered : Bool
deriving DecidableEq

/-- The catch branch of `solvePuzzle` (Solver.tsx lines 141-160): on any
failed solve or re-solve (fetch error or `success:false`) the error is
recorded and the displayed results are cleared; no other field is
touched. -/
def solveFailureUpdate (s : SolverState) (msg : String) : SolverState :=
  { s with
    error := some msg
    topSolution := []
    allPredictions := []
    allWordsCovered := false
    solveTime := none }

/-- The exclusion vocabulary sent with a solve request
(Solver.tsx line 86: `excludedPredictions.flatMap(pred => pred.words)`). -/
def excludeWordsSent (s : SolverState) : List String :=
  s.excludedPredictions.flatMap (fun p => p.words)

/-- The retry action is rendered exactly when an error is pending
(Solver.tsx line 311: the error alert with its Retry button is guarded
by `error && ...`). -/
def retryOffered (s : SolverState) : Bool :=
  s.error.isSome

/-- The puzzle-change guard of the `useEffect`
(Solver.tsx line 42: `prevPuzzleIdRef.current !== null &&
prevPuzzleIdRef.current !== puzzleId`). -/
def puzzleChangeGuard (prev : Option Int) (newId : Int) : Bool :=
  prev.isSome && prev != some newId

/-- The reset block of the `useEffect` (Solver.tsx lines 45-51). -/
def resetOnPuzzleChange (s : SolverState) : SolverState :=
  { s with
    topSolution := []
    allPredictions := []
    excludedPredictions := []
    solveTime := none
    error := none
    showExcluded := false
    allWordsCovered := false }

/-- The whole `useEffect` body (Solver.tsx lines 41-59): reset when the
guard fires, then record the new puzzle id in the ref. -/
def onPuzzleIdChange (prev : Option Int) (newId : Int) (s : SolverState) :
    SolverState × Option Int :=
  if puzzleChangeGuard prev newId then (resetOnPuzzleChange s, some newId)
  else (s, some newId)

/-! ## Request validation and preflight (part_002 lines 302-349)

The request body is parsed JSON, so the `words` field is modeled as an
optional JSON value; the validation is exactly
`!words || !Array.isArray(words) || words.length !== 16`. -/

/-- A JSON value, as far as the `words` field can range over. -/
inductive JsonVal where
  | str (s : String)
  | num (n : Int)
  | bool (b : Bool)
  | null
  | arr (elems : List JsonVal)

/-- JavaScript truthiness of a JSON value (`!words` is its negation). -/
def truthy : JsonVal → Bool
  | .null => false
  | .str s => s != ""
  | .num n => n != 0
  | .bool b => b
  | .arr _ => true

/-- `Array.isArray(words)`. -/
def isArrayVal : JsonVal → Bool
  | .arr _ => true
  | _ => false

/-- `words.length` for an array (irrelevant otherwise: the length test
is only reached when the array test passed). -/
def arrayLen : JsonVal → Nat
  | .arr l => l.length
  | _ => 0

/-- Input validation of the route (part_002 lines 318): the request is
rejected with a 400 when `words` is absent, falsy, not an array, or not
of length 16.  Entry types are not inspected. -/
def wordsRejected (words : Option JsonVal) : Bool :=
  match words with
  | none => true
  | some w => !truthy w || !isArrayVal w || arrayLen w != 16

/-- Where a request leaves the preflight stage of the route.
`invalidInput` and `missingKey` are the two early 400 returns (part_002
lines 318-326 and 331-340), both taken before the temp file is written
(line 349) or any process is spawned (line 429); `spawned` means control
reached the spawn. -/
inductive Preflight where
  | invalidInput
  | missingKey
  | spawned
deriving DecidableEq

/-- The preflight control flow of the solve route, in source order:
words validation, then the credential check
(`use_llm && !apiKey`, part_002 line 331), then temp-file write + spawn. -/
def preflight (words : Option JsonVal) (use_llm : Bool) (hasApiKey : Bool) : Preflight :=
  if wordsRejected words then .invalidInput
  else if use_llm && !hasApiKey then .missingKey
  else .spawned

/-- Modelled from the spec (the wording of claim C7): `words` is "an ordered
sequence of strings" when it is an array all of whose entries are JSON
strings.  This is the claim-side predicate the validation of the route is
compared against; it appears in no executable route code. -/
def allEntriesStrings : JsonVal → Bool
  | .arr l => l.all fun v => match v with | .str _ => true | _ => false
  | _ => false

/-! ## Bounded task execution (part_002 lines 426-583)

The spawned process is abstracted by the event that settles the
`Promise` of lines 428-476: either the `close` event fired first (with
an exit code and the accumulated stdout/stderr), or the 60-second timer
fired first (lines 454-457), or the `error` event fired (lines 468-471).
`parseOk` abstracts whether `JSON.parse` succeeds on the selected line;
`unlinkFails` abstracts whether `fs.unlinkSync` throws (lines 481-485).
-/

inductive TaskEvent where
  | completed (exitCode : Int) (stdout stderr : String)
  | timedOut
  | spawnFailed
deriving DecidableEq

/-- Rejection test of the `close` handler (part_002 lines 459-466):
`code !== 0 && !stdout`.  (An exit code of `null` after a signal kill
compares unequal to 0 in JavaScript and is covered by a nonzero model
value.) -/
def closeRejects (exitCode : Int) (stdout : String) : Bool :=
  exitCode != 0 && stdout == ""

/-- The post-resolution check (part_002 lines 487-489):
`if (stderr && !stdout) throw new Error(stderr)`. -/
def stderrFailure (stdout stderr : String) : Bool :=
  stderr != "" && stdout == ""

/-- A completed task is declared failed when either the `close` handler
rejected or the stderr-without-stdout check threw. -/
def taskFailureDeclared (exitCode : Int) (stdout stderr : String) : Bool :=
  closeRejects exitCode stdout || stderrFailure stdout stderr

/-- Whether the execution promise resolves (rather than rejects) for a
given settling event. -/
def promiseResolves : TaskEvent → Bool
  | .completed c so _ => !closeRejects c so
  | .timedOut => false
  | .spawnFailed => false

/-- The kind of HTTP response produced: the 200 success body, or one of
the error bodies (504/500, all of the shape `\x7bsuccess:false, error\x7d`). -/
inductive ReplyKind where
  | okJson
  | errorReply
deriving DecidableEq

/-- What the route observably did after writing the temp file: whether
the temp file was gone when the route returned, and which kind of
response was produced. -/
structure ExecTrace where
  tmpDeleted : Bool
  reply : ReplyKind
deriving DecidableEq

/-- The try/catch control flow around the spawned task (part_002 lines
426-571).  Rejection paths (timeout, spawn error, nonzero exit with
empty stdout) jump straight to the catch block of line 549, which
returns without touching the temp file.  Resolution paths first attempt
`fs.unlinkSync` inside a try/catch that swallows any failure (lines
481-485), then run the stderr check, line selection and `JSON.parse`. -/
def solveExec (ev : TaskEvent) (parseOk : Bool) (unlinkFails : Bool) : ExecTrace :=
  match ev with
  | .timedOut => { tmpDeleted := false, reply := .errorReply }
  | .spawnFailed => { tmpDeleted := false, reply := .errorReply }
  | .completed c so se =>
    if closeRejects c so then { tmpDeleted := false, reply := .errorReply }
    else
      let deleted := !unlinkFails
      if stderrFailure so se then { tmpDeleted := deleted, reply := .errorReply }
      else if parseOk then { tmpDeleted := deleted, reply := .okJson }
      else { tmpDeleted := deleted, reply := .errorReply }

/-! ## Concrete sample values used by counterexamples and witnesses -/

/-- A four-word candidate group. -/
def samplePred : Pred :=
  { words := ["FOO", "BAR", "BAZ", "QUX"], confidence := 1 }

/-- A different four-word candidate group, disjoint from `samplePred`. -/
def otherPred : Pred :=
  { words := ["ALFA", "BETA", "GAMMA", "DELTA"], confidence := 1 }

/-- A client session that has displayed results and no pending error. -/
def solvedState : SolverState :=
  { topSolution := [samplePred]
    allPredictions := [samplePred]
    excludedPredictions := []
    solveTime := some 1000
    error := none
    showExcluded := false
    allWordsCovered := true }

/-- A client session mid-workflow: results shown, one group excluded, an
error pending, the excluded panel open. -/
def busyState : SolverState :=
  { topSolution := [samplePred]
    allPredictions := [samplePred, otherPred]
    excludedPredictions := [otherPred]
    solveTime := some 1200
    error := some "boom"
    showExcluded := true
    allWordsCovered := true }

/-- A client session whose only record is one excluded group. -/
def exclState : SolverState :=
  { topSolution := []
    allPredictions := []
    excludedPredictions := [samplePred]
    solveTime := none
    error := none
    showExcluded := false
    allWordsCovered := false }

/-- An engine payload that self-reports full coverage while supplying a
one-group top solution. -/
def engineOverride : SolverResult :=
  { top_solution := some [samplePred], all_words_covered := some true }

/-- An engine payload whose explicit `top_solution` has five groups. -/
def fiveGroups : SolverResult :=
  { top_solution := some (List.replicate 5 samplePred) }

/-- An engine payload in the older flat shape with six predictions. -/
def flatSix : SolverResult :=
  { predictions := some (List.replicate 6 samplePred) }

/-- An engine payload that repeats an excluded group inside its explicit
`top_solution` field while its flat `predictions` list is empty. -/
def engineRepeats : SolverResult :=
  { top_solution := some [samplePred], predictions := some [] }

/-- An engine payload in the older flat shape mixing an excludable group
with a clean one. -/
def flatMixed : SolverResult :=
  { predictions := some [samplePred, otherPred] }

/-- A request words field holding sixteen JSON numbers. -/
def sixteenNumbers : JsonVal :=
  JsonVal.arr (List.replicate 16 (JsonVal.num 1))

/-! ## Helper lemmas (shared) -/

theorem all_of_filter {α : Type} (q : α → Bool) (l : List α) :
    (l.filter q).all q = true := by
  induction l with
  | nil => rfl
  | cons a t ih =>
    by_cases h : q a = true
    · simp [List.filter_cons, h, ih]
    · simp only [List.filter_cons]
      rw [if_neg (by simp [h])]
      exact ih

theorem all_of_take {α : Type} (q : α → Bool) (l : List α) (n : Nat)
    (h : l.all q = true) : (l.take n).all q = true := by
  induction l generalizing n with
  | nil => simp
  | cons a t ih =>
    cases n with
    | zero => simp
    | succ m =>
      simp only [List.all_cons, Bool.and_eq_true] at h
      simp [List.take_succ_cons, List.all_cons, h.1, ih m h.2]

/-! ## Claim theorems -/

/-- C1 (counterexample): the claim says the returned `all_words_covered`
flag is computed locally and is forced false whenever `top_solution` has
fewer than 4 groups, even if the engine reported true.  On the payload
`engineOverride` — engine self-report `true`, one-group top solution —
the route returns the flag `true` with a top solution of length 1, so
the flag is copied, not recomputed. -/
theorem C1_counterexample :
    (shapeResponse engineOverride).top_solution.length = 1 ∧
    (shapeResponse engineOverride).all_words_covered = true :=
  ⟨rfl, rfl⟩

/-- C1 (amended): the returned `all_words_covered` flag is copied
verbatim from the self-report of the engine whenever that field is
present — regardless of the length of `top_solution` — and only when the
engine omits the field does the route compute the flag locally, and then
merely as a length-equals-4 check on the returned top solution, without
inspecting word coverage. -/
theorem C1_flag_copied_from_engine :
    ∀ r : SolverResult,
      (∃ b, r.all_words_covered = some b ∧ (shapeResponse r).all_words_covered = b) ∨
      (r.all_words_covered = none ∧
        ((shapeResponse r).all_words_covered = true ↔
          (shapeResponse r).top_solution.length = 4)) := by
  intro r
  cases h : r.all_words_covered with
  | some b =>
    exact Or.inl ⟨b, rfl, by simp [shapeResponse, routeAllWordsCovered, h]⟩
  | none =>
    refine Or.inr ⟨rfl, ?_⟩
    simp [shapeResponse, routeAllWordsCovered, h]

/-- C2 (counterexample): the claim says that on `"\x7b\"a\":1\x7d\ntrailing junk"`
extraction fails with `MalformedOutput` because the payload must be the
last line.  In fact the backward scan recovers the earlier JSON line:
the extractor hands `JSON.parse` exactly the same line
`"\x7b\"a\":1\x7d"` as it does for the progress-lines input, so the two
inputs cannot have different extraction outcomes. -/
theorem C2_counterexample :
    selectJsonLine "\x7b\"a\":1\x7d\ntrailing junk" = "\x7b\"a\":1\x7d" ∧
    selectJsonLine "\x7b\"a\":1\x7d\ntrailing junk" =
      selectJsonLine "progress...\nmore progress\n\x7b\"a\":1\x7d" := by
  decide

/-- C2 (amended): given `"progress...\nmore progress\n\x7b\"a\":1\x7d"` the
extractor selects the payload line `"\x7b\"a\":1\x7d"` and returns
`\x7ba:1\x7d`; given `"\x7b\"a\":1\x7d\ntrailing junk"` extraction does
not fail — the backward scan selects the same payload line even though
junk follows it, so it also returns `\x7ba:1\x7d`; and on
`"no json here\nat all"`, where no line begins with a structural open
character, the raw last line `"at all"` is the one handed to
`JSON.parse`. -/
theorem C2_backward_scan_recovers_payload :
    selectJsonLine "progress...\nmore progress\n\x7b\"a\":1\x7d" = "\x7b\"a\":1\x7d" ∧
    selectJsonLine "\x7b\"a\":1\x7d\ntrailing junk" = "\x7b\"a\":1\x7d" ∧
    selectJsonLine "no json here\nat all" = "at all" := by
  decide

/-- C3 (counterexample): the claim says the temporary script file is
deleted on every exit path, including timeout expiry and task error.  On
the timeout path — and on the nonzero-exit-with-empty-stdout rejection
path — the route jumps to the catch block and returns without deleting
the file, even when deletion would have succeeded. -/
theorem C3_counterexample :
    (solveExec TaskEvent.timedOut true false).tmpDeleted = false ∧
    (solveExec (TaskEvent.completed 1 "" "boom") true false).tmpDeleted = false := by
  decide

/-- C3 (amended): the temporary script file is deleted only on the exit
paths where the execution promise resolves (process close with zero exit
status or non-empty stdout), including the subsequent
stderr-check-failure and parse-failure error paths; on timeout expiry
and on rejection paths the route returns without deleting it.  When
deletion is attempted, a deletion failure is swallowed: the produced
response does not depend on whether the unlink succeeded. -/
theorem C3_cleanup_only_on_resolution :
    ∀ (ev : TaskEvent) (parseOk unlinkFails : Bool),
      ((solveExec ev parseOk unlinkFails).tmpDeleted = true ↔
        (promiseResolves ev = true ∧ unlinkFails = false)) ∧
      (solveExec ev parseOk true).reply = (solveExec ev parseOk false).reply := by
  intro ev pOk uf
  cases ev with
  | timedOut => simp [solveExec, promiseResolves]
  | spawnFailed => simp [solveExec, promiseResolves]
  | completed c so se =>
    by_cases h : closeRejects c so = true
    · simp [solveExec, promiseResolves, h]
    · by_cases hs : stderrFailure so se = true
      · cases uf <;> simp [solveExec, promiseResolves, h, hs]
      · cases uf <;> cases pOk <;> simp [solveExec, promiseResolves, h, hs]

/-- C4 (counterexample): the claim says a group excluded by
`exclude(group)` never reappears in the next successful outcome, in
either returned list.  Excluding `samplePred` sends its four words as
the exclusion vocabulary, but when the engine payload carries the same
group inside its explicit `top_solution` field (`engineRepeats`), the
Python filter — which only rewrites the flat `predictions` list — lets
it through, and the route returns it: the excluded word set reappears in
`top_solution`. -/
theorem C4_counterexample :
    excludeWordsSent exclState = samplePred.words ∧
    wordSetIntersects samplePred.words (excludeWordsSent exclState) = true ∧
    (solveRound (excludeWordsSent exclState) engineRepeats).top_solution.map
        PredOut.words = [samplePred.words] := by
  refine ⟨rfl, by decide, rfl⟩

/-- C4 (amended): the exclusion guarantee holds only for engine payloads
in the older flat shape: when the payload has no explicit `top_solution`
and no explicit `all_predictions` field and the exclusion vocabulary is
non-empty, every prediction whose case-folded word set meets the
vocabulary is dropped from both returned lists; payloads carrying
explicit top/all fields bypass the filter. -/
theorem C4_filter_covers_flat_shape :
    ∀ (ew : List String) (r : SolverResult),
      ew ≠ [] → r.top_solution = none → r.all_predictions = none →
      (solveRound ew r).top_solution.all
          (fun p => !wordSetIntersects p.words ew) = true ∧
      (solveRound ew r).all_predictions.all
          (fun p => !wordSetIntersects p.words ew) = true := by
  intro ew r hew htop hall
  have hne : ew.isEmpty = false := by
    cases ew with
    | nil => exact absurd rfl hew
    | cons a t => rfl
  have hmap : ∀ l : List Pred,
      l.all (fun p => !wordSetIntersects p.words ew) = true →
      (l.map normalizePred).all (fun p => !wordSetIntersects p.words ew) = true := by
    intro l h
    induction l with
    | nil => rfl
    | cons a t ih =>
      simp only [List.all_cons, Bool.and_eq_true] at h
      simp only [List.map_cons, List.all_cons, Bool.and_eq_true]
      exact ⟨h.1, ih h.2⟩
  cases hp : r.predictions with
  | none =>
    constructor
    · simp [solveRound, pyPostProcess, hne, shapeResponse, routeTopSolution,
        htop, hp]
    · simp [solveRound, pyPostProcess, hne, shapeResponse, routeAllPredictions,
        hall, hp]
  | some preds =>
    have hfil : (applyExclusionFilter ew preds).all
        (fun p => !wordSetIntersects p.words ew) = true :=
      all_of_filter _ preds
    constructor
    · simp only [solveRound, pyPostProcess, hne, Bool.false_eq_true, if_false,
        shapeResponse, routeTopSolution, htop, hp, Option.map_some]
      exact hmap _ (all_of_take _ _ 4 hfil)
    · simp only [solveRound, pyPostProcess, hne, Bool.false_eq_true, if_false,
        shapeResponse, routeAllPredictions, hall, hp, Option.map_some,
        Option.getD_some]
      exact hmap _ hfil

/-- C4 (witness): instantiates the amended filter guarantee on the flat
payload `flatMixed` with the vocabulary of `samplePred`. -/
theorem C4_witness :
    (solveRound samplePred.words flatMixed).top_solution.all
        (fun p => !wordSetIntersects p.words samplePred.words) = true ∧
    (solveRound samplePred.words flatMixed).all_predictions.all
        (fun p => !wordSetIntersects p.words samplePred.words) = true :=
  C4_filter_covers_flat_shape samplePred.words flatMixed (by decide) rfl rfl

/-- C5 (counterexample): the claim says a failed re-solve preserves the
previously displayed results.  From `solvedState`, which displays a
non-empty top solution, the failure branch clears both result lists. -/
theorem C5_counterexample :
    solvedState.topSolution ≠ [] ∧
    (solveFailureUpdate solvedState "Failed to solve puzzle").topSolution = [] ∧
    (solveFailureUpdate solvedState "Failed to solve puzzle").allPredictions = [] := by
  refine ⟨?_, rfl, rfl⟩
  simp [solvedState]

/-- C5 (amended): every failed solve or re-solve clears the previously
displayed results — `topSolution` and `allPredictions` are reset to
empty, `allWordsCovered` to false and `solveTime` to idle — the error
message is recorded, and a retry action is offered while the error is
pending. -/
theorem C5_failure_clears_results :
    ∀ (s : SolverState) (msg : String),
      (solveFailureUpdate s msg).topSolution = [] ∧
      (solveFailureUpdate s msg).allPredictions = [] ∧
      (solveFailureUpdate s msg).allWordsCovered = false ∧
      (solveFailureUpdate s msg).solveTime = none ∧
      (solveFailureUpdate s msg).error = some msg ∧
      retryOffered (solveFailureUpdate s msg) = true := by
  intro s msg
  exact ⟨rfl, rfl, rfl, rfl, rfl, rfl⟩

/-- C6 (confirmed): a completed external task is declared failed — the
execution promise rejects in the close handler, or the
stderr-without-stdout check throws — exactly when stdout is empty and
(stderr is non-empty or the exit status is nonzero); in particular
stderr content with non-empty stdout never counts as failure. -/
theorem C6_failure_iff :
    ∀ (exitCode : Int) (stdout stderr : String),
      taskFailureDeclared exitCode stdout stderr = true ↔
        (stdout = "" ∧ (stderr ≠ "" ∨ exitCode ≠ 0)) := by
  intro c so se
  simp only [taskFailureDeclared, closeRejects, stderrFailure,
    Bool.or_eq_true, Bool.and_eq_true, bne_iff_ne, beq_iff_eq, ne_eq]
  tauto

/-- C7 (counterexample): the claim says a words list that is not an
ordered sequence of strings is rejected with a 400 and no task is
spawned.  A list of sixteen JSON numbers is not a sequence of strings,
yet it passes the validation — which checks only presence, array-ness
and length — and control reaches the spawn. -/
theorem C7_counterexample :
    allEntriesStrings sixteenNumbers = false ∧
    preflight (some sixteenNumbers) false true = Preflight.spawned := by
  decide

/-- C7 (amended): a solve request whose words field is missing, not an
array, or not of length 16 is rejected with the 400 invalid-input
response before the temporary file is written or any process is spawned;
the entry types are not checked, so a 16-entry array of non-strings is
not rejected. -/
theorem C7_shape_validation_blocks_spawn :
    ∀ (words : Option JsonVal) (use_llm hasApiKey : Bool),
      (words = none ∨
        ∀ w, words = some w → (isArrayVal w = false ∨ arrayLen w ≠ 16)) →
      preflight words use_llm hasApiKey = Preflight.invalidInput := by
  intro words u k h
  cases words with
  | none => rfl
  | some w =>
    have hw : wordsRejected (some w) = true := by
      rcases h with h | h
      · exact absurd h (by simp)
      · rcases h w rfl with h1 | h1
        · simp [wordsRejected, h1]
        · simp [wordsRejected, h1]
    simp [preflight, hw]

/-- C7 (witness): instantiates the amended validation guarantee on a
one-entry words array. -/
theorem C7_witness :
    preflight (some (JsonVal.arr [JsonVal.str "ONLY"])) false true =
      Preflight.invalidInput :=
  C7_shape_validation_blocks_spawn _ false true
    (Or.inr fun w hw => by cases hw; exact Or.inr (by decide))

/-- C8 (counterexample): the claim says every successful outcome has a
`top_solution` of length at most 4 regardless of the shape of the engine
payload.  When the engine supplies an explicit five-group `top_solution`
(`fiveGroups`), the route passes it through — it only logs a warning —
and the response carries five groups. -/
theorem C8_counterexample :
    (shapeResponse fiveGroups).top_solution.length = 5 :=
  rfl

/-- C8 (amended): the length bound holds only when the engine payload
has no explicit `top_solution` field: the route then takes the first
four entries of the flat `predictions` list, so the returned
`top_solution` has length at most 4; an engine-supplied `top_solution`
is returned at whatever length it has. -/
theorem C8_bound_without_engine_top_solution :
    ∀ r : SolverResult, r.top_solution = none →
      (shapeResponse r).top_solution.length ≤ 4 := by
  intro r h
  simp only [shapeResponse, List.length_map]
  cases hp : r.predictions with
  | none => simp [routeTopSolution, h, hp]
  | some preds =>
    simp only [routeTopSolution, h, hp, List.length_take]
    exact Nat.min_le_left _ _

/-- C8 (witness): instantiates the amended length bound on the flat
six-prediction payload `flatSix`. -/
theorem C8_witness :
    (shapeResponse flatSix).top_solution.length ≤ 4 :=
  C8_bound_without_engine_top_solution flatSix rfl

/-- C9 (confirmed): whenever the active puzzle identity changes — a
previous identity was recorded and the incoming one differs — the
session is reset regardless of prior state: excluded predictions, top
solution, all predictions, solve time, pending error, the excluded
panel, and the coverage flag all return to empty/idle, and the new
identity is recorded. -/
theorem C9_puzzle_change_resets :
    ∀ (prev : Option Int) (newId : Int) (s : SolverState),
      prev ≠ none → prev ≠ some newId →
        (onPuzzleIdChange prev newId s).1.excludedPredictions = [] ∧
        (onPuzzleIdChange prev newId s).1.topSolution = [] ∧
        (onPuzzleIdChange prev newId s).1.allPredictions = [] ∧
        (onPuzzleIdChange prev newId s).1.error = none ∧
        (onPuzzleIdChange prev newId s).1.solveTime = none ∧
        (onPuzzleIdChange prev newId s).1.showExcluded = false ∧
        (onPuzzleIdChange prev newId s).1.allWordsCovered = false ∧
        (onPuzzleIdChange prev newId s).2 = some newId := by
  intro prev newId s h1 h2
  cases prev with
  | none => exact absurd rfl h1
  | some p =>
    have hp : p ≠ newId := fun h => h2 (by rw [h])
    have hg : puzzleChangeGuard (some p) newId = true := by
      simp [puzzleChangeGuard, hp]
    simp [onPuzzleIdChange, hg, resetOnPuzzleChange]

/-- C9 (witness): instantiates the reset on a change from puzzle 1 to
puzzle 2 out of the mid-workflow session `busyState`. -/
theorem C9_witness :
    (onPuzzleIdChange (some 1) 2 busyState).1.excludedPredictions = [] ∧
    (onPuzzleIdChange (some 1) 2 busyState).1.topSolution = [] ∧
    (onPuzzleIdChange (some 1) 2 busyState).1.allPredictions = [] ∧
    (onPuzzleIdChange (some 1) 2 busyState).1.error = none ∧
    (onPuzzleIdChange (some 1) 2 busyState).1.solveTime = none ∧
    (onPuzzleIdChange (some 1) 2 busyState).1.showExcluded = false ∧
    (onPuzzleIdChange (some 1) 2 busyState).1.allWordsCovered = false ∧
    (onPuzzleIdChange (some 1) 2 busyState).2 = some 2 :=
  C9_puzzle_change_resets (some 1) 2 busyState (by decide) (by decide)

/-- C10 (confirmed): the failure branch of a solve or re-solve leaves
the accumulated excluded predictions untouched (and the excluded-panel
toggle with them), so the exclusion vocabulary sent with the next retry
is exactly the one that would have been sent before the failure. -/
theorem C10_failure_preserves_exclusions :
    ∀ (s : SolverState) (msg : String),
      (solveFailureUpdate s msg).excludedPredictions = s.excludedPredictions ∧
      (solveFailureUpdate s msg).showExcluded = s.showExcluded ∧
      excludeWordsSent (solveFailureUpdate s msg) = excludeWordsSent s := by
  intro s msg
  exact ⟨rfl, rfl, rfl⟩

end ConnectionsBridge
